import Mathlib

/-!
Shallow embedding of the channel/sweep-variable configuration subsystem of
src/pymeasure/instruments/agilent/agilent4156.py (Agilent 4155/4156 driver).

Channel modes, functions and SCPI command texts are modelled as strings;
numeric values as rationals.  A Python function that can raise before any
transport write is modelled as returning an Option (none = the exception was
raised and no command was issued); where the commands issued matter, the
result carries the list of command strings written to the transport, in order.
-/

namespace Agilent4156

/-- valid_iv (agilent4156.py lines 940-948): mode V gives the list [-200, 200],
mode I gives [-1, 1], anything else raises ValueError (modelled as none).
The Python function returns a two-element list, not an interval object. -/
def valid_iv (channel_mode : String) : Option (List ℚ) :=
  if channel_mode = "V" then some [-200, 200]
  else if channel_mode = "I" then some [-1, 1]
  else none

/-- valid_compliance (agilent4156.py lines 951-959): mode I gives [-200, 200],
mode V gives [-1, 1], anything else raises ValueError (modelled as none). -/
def valid_compliance (channel_mode : String) : Option (List ℚ) :=
  if channel_mode = "I" then some [-200, 200]
  else if channel_mode = "V" then some [-1, 1]
  else none

/-- Modelled from the spec: strict_range from pymeasure.instruments.validators
is not under src/.  Per the spec a value is validated against a range given by
a list: accepted exactly when it lies in the closed interval between the least
and the greatest element of the list; rejection raises (none). -/
def strict_range (value : ℚ) (values : List ℚ) : Option ℚ :=
  match values.min?, values.max? with
  | some lo, some hi => if lo ≤ value ∧ value ≤ hi then some value else none
  | _, _ => none

/-- Modelled from the spec: strict_discrete_set from
pymeasure.instruments.validators is not under src/.  Per the spec a value is
accepted exactly when it is a member of the list of legal values. -/
def strict_discrete_set (value : String) (values : List String) : Option String :=
  if value ∈ values then some value else none

/-- Python list repetition: in agilent4156.py the expression 2 * values
multiplies a Python list by an integer, which concatenates n copies of the
list rather than scaling its entries. -/
def pyListMul (n : Nat) (l : List ℚ) : List ℚ :=
  (List.replicate n l).flatten

/-- VARX.step setter (agilent4156.py lines 768-774): validates the value with
strict_range against 2 * valid_iv(channel_mode) and only then writes the STEP
command.  Returns the validated value passed to the write, none when a raise
happened before any command was issued. -/
def step_set (channel_mode : String) (value : ℚ) : Option ℚ :=
  (valid_iv channel_mode).bind (fun values => strict_range value (pyListMul 2 values))

/-- VARX.compliance setter (agilent4156.py lines 788-794): validates against
2 * valid_compliance(channel_mode), then writes the COMP command. -/
def compliance_set (channel_mode : String) (value : ℚ) : Option ℚ :=
  (valid_compliance channel_mode).bind
    (fun values => strict_range value (pyListMul 2 values))

/-- SMU.__validate_cons (agilent4156.py lines 614-625): raises ValueError
unless the channel mode is not COMM and the channel function is CONS;
otherwise returns valid_iv of the mode. -/
def validate_cons (channel_mode channel_function : String) : Option (List ℚ) :=
  if ¬ (channel_mode ≠ "COMM" ∧ channel_function = "CONS") then none
  else valid_iv channel_mode

/-- SMU.__validate_compl (agilent4156.py lines 627-638): raises ValueError
unless the channel mode is not COMM and the channel function is CONS;
otherwise returns valid_compliance of the mode. -/
def validate_compl (channel_mode channel_function : String) : Option (List ℚ) :=
  if ¬ (channel_mode ≠ "COMM" ∧ channel_function = "CONS") then none
  else valid_compliance channel_mode

/-- SMU.constant_value setter (agilent4156.py lines 552-562): runs
__validate_cons, validates the value with strict_range, then writes exactly
one CONS command whose text depends on the analyzer mode.  Returns the list
of commands written; none means a raise before any command was issued. -/
def smu_constant_value_set (ch channel_mode channel_function analyzer : String)
    (v : ℚ) : Option (List String) :=
  (validate_cons channel_mode channel_function).bind fun values =>
    (strict_range v values).map fun value =>
      if analyzer = "SWEEP" then [":PAGE:MEAS:CONS:" ++ ch ++ " " ++ toString value]
      else [":PAGE:MEAS:SAMP:CONS:" ++ ch ++ " " ++ toString value]

/-- SMU.compliance setter (agilent4156.py lines 586-597): runs
__validate_compl, validates the value with strict_range, then writes exactly
one COMP command. -/
def smu_compliance_set (ch channel_mode channel_function analyzer : String)
    (v : ℚ) : Option (List String) :=
  (validate_compl channel_mode channel_function).bind fun values =>
    (strict_range v values).map fun value =>
      if analyzer = "SWEEP" then [":PAGE:MEAS:CONS:" ++ ch ++ ":COMP " ++ toString value]
      else [":PAGE:MEAS:SAMP:CONS:" ++ ch ++ ":COMP " ++ toString value]

/-- VSU.constant_value setter (agilent4156.py lines 678-688): validates the
value against the fixed list [-200, 200] and writes one CONS command.  The
channel function attribute of the VSU object is an argument here because the
claim quantifies over it, but the source setter never consults it. -/
def vsu_constant_value_set (ch channel_function analyzer : String)
    (v : ℚ) : Option (List String) :=
  (strict_range v [-200, 200]).map fun value =>
    if analyzer = "SWEEP" then [":PAGE:MEAS:CONS:" ++ ch ++ " " ++ toString value]
    else [":PAGE:MEAS:SAMP:CONS:" ++ ch ++ " " ++ toString value]

/-- Legal channel_mode values of an SMU (SMU.__init__, line 510). -/
def smu_channel_mode_values : List String := ["V", "I", "COMM"]

/-- Legal channel_mode values of a VMU (VMU.__init__, line 650). -/
def vmu_channel_mode_values : List String := ["V", "DVOL"]

/-- Legal channel_mode values of a VSU: VSU.__init__ (lines 656-661) does not
assign channel_mode_values, so the base-class dynamic default values=[] of
AgilentMeasurementChannel.channel_mode (line 480) stays in force. -/
def vsu_channel_mode_values : List String := []

/-- Setting channel_mode on a channel kind
(AgilentMeasurementChannel.channel_mode, lines 476-485): the value runs
through strict_discrete_set against the channel-kind values list before the
MODE command is written; none means the validator raised and nothing was
written. -/
def channel_mode_set (kind_values : List String) (m : String) : Option String :=
  strict_discrete_set m kind_values

/-- The six mode-bearing channels scanned by the sweep variables, in source
order (agilent4156.py lines 709 and 872). -/
def sweepChannels : List String :=
  ["SMU1", "SMU2", "SMU3", "SMU4", "VSU1", "VSU2"]

/-- VARX.channel_mode / VARD.channel_mode (agilent4156.py lines 706-714 and
869-877): loops over the six channels; every channel whose FUNC? reply equals
the role overwrites ch_mode with its MODE? reply; there is no break, and if no
channel matched, ch_mode is unbound at the return (UnboundLocalError),
modelled as none.  func and mode give the FUNC? and MODE? replies per
channel. -/
def channel_mode_scan (role : String) (func mode : String → String) : Option String :=
  sweepChannels.foldl
    (fun acc ch => if func ch == role then some (mode ch) else acc) none

/-- The reading of the claim, for comparison: the mode of the first channel in
scan order whose function equals the role. -/
def channel_mode_first (role : String) (func mode : String → String) : Option String :=
  (sweepChannels.find? (fun ch => func ch == role)).map mode

/-- check_current_voltage_name (agilent4156.py lines 426-431), on the
characters of the name: if the length exceeds 6, or else the first character
is not alphabetic, the name becomes the filler letter followed by the first 5
characters; indexing name[0] on an empty name raises IndexError (none).
Python evaluates the length test first, so a long name never reaches the
indexing. -/
def check_current_voltage_name (name : List Char) : Option (List Char) :=
  if 6 < name.length then some ((Char.ofNat 97) :: name.take 5)
  else
    match name with
    | [] => none
    | c :: _ => if c.isAlpha then some name else some ((Char.ofNat 97) :: name.take 5)

/-- Single-quote character used by the driver when quoting variable names in
display-list commands. -/
def sq : String := String.singleton (Char.ofNat 39)

/-- Argument shapes accepted by Agilent4156.save and save_var: a Python list,
a single string, or any other object. -/
inductive TraceArg where
  | list (l : List String)
  | str (s : String)
  | other
deriving DecidableEq

/-- Agilent4156.save (agilent4156.py lines 312-337): writes the display-mode
command first; for a list longer than 8 raises RuntimeError with no further
writes; otherwise writes one DISP:LIST command per name in order; a single
string is written directly; any other shape raises TypeError.  The result is
the list of commands written paired with the error message raised, if any. -/
def save (tl : TraceArg) : List String × Option String :=
  let pre := [":PAGE:DISP:MODE LIST"]
  match tl with
  | .list l =>
      if 8 < l.length then (pre, some "Maximum of 8 variables allowed")
      else (pre ++ l.map (fun n => ":PAGE:DISP:LIST " ++ sq ++ n ++ sq), none)
  | .str s => (pre ++ [":PAGE:DISP:LIST " ++ sq ++ s ++ sq], none)
  | .other => (pre, some "TypeError")

/-- Agilent4156.save_var (agilent4156.py lines 339-366): identical to save but
with limit 2 and the DISP:DVAR command. -/
def save_var (tl : TraceArg) : List String × Option String :=
  let pre := [":PAGE:DISP:MODE LIST"]
  match tl with
  | .list l =>
      if 2 < l.length then (pre, some "Maximum of 2 variables allowed")
      else (pre ++ l.map (fun n => ":PAGE:DISP:DVAR " ++ sq ++ n ++ sq), none)
  | .str s => (pre ++ [":PAGE:DISP:DVAR " ++ sq ++ s ++ sq], none)
  | .other => (pre, some "TypeError")

/-- Agilent4156.measure (agilent4156.py lines 226-248): if the analyzer mode
reads SWEEP, writes only the blocking single-measurement command; otherwise
writes the sampling period, then the sampling point count, then the same
blocking command.  Returns the commands written in order. -/
def measure (analyzer_mode period : String) (points : Nat) : List String :=
  if analyzer_mode = "SWEEP" then [":PAGE:SCON:MEAS:SING; *OPC?"]
  else
    [":PAGE:MEAS:SAMP:PER " ++ period,
     ":PAGE:MEAS:SAMP:POIN " ++ toString points,
     ":PAGE:SCON:MEAS:SING; *OPC?"]

/-- Python str.split with an explicit separator: splits at every occurrence
of the separator and keeps empty fields, so splitting the empty string yields
one empty field. -/
def pySplit (sep : Char) (s : String) : List String :=
  (s.toList.foldr
    (fun c acc =>
      match acc with
      | [] => [[c]]
      | a :: rest => if c = sep then [] :: a :: rest else (c :: a) :: rest)
    [[]]).map String.mk

/-- Agilent4156.data_variables (agilent4156.py lines 368-386): splits the
DISP:LIST? and DISP:DVAR? replies on commas, concatenates, and drops the
empty entries (Python filter with None keeps only truthy strings). -/
def data_variables (dlist_reply dvar_reply : String) : List String :=
  (pySplit (Char.ofNat 44) dlist_reply ++ pySplit (Char.ofNat 44) dvar_reply).filter
    (fun s => decide (s ≠ ""))

/-- np.column_stack of an existing table with one new column, for columns of
equal length: each row gains the corresponding entry of the column. -/
def column_stack (rows : List (List ℚ)) (col : List ℚ) : List (List ℚ) :=
  List.zipWith (fun r x => r ++ [x]) rows col

/-- Agilent4156.get_data (agilent4156.py lines 388-423), up to the returned
table: when the OPC? reply is truthy the header is data_variables; then one
numeric column per header entry is fetched and column-stacked in order.  When
OPC? is falsy the header is unbound (NameError) and when the header is empty
the data variable is unbound at the DataFrame call; both are modelled as
none.  fetch gives the DATA? reply per variable name. -/
def get_data (opc : Bool) (dlist_reply dvar_reply : String)
    (fetch : String → List ℚ) : Option (List String × List (List ℚ)) :=
  if ¬ opc then none
  else
    match data_variables dlist_reply dvar_reply with
    | [] => none
    | v :: rest =>
        some (v :: rest,
          rest.foldl (fun rows w => column_stack rows (fetch w))
            ((fetch v).map (fun x => [x])))

/-- The keys of obj_dict in Agilent4156.configure (agilent4156.py lines
284-295): the 11 channel slots. -/
def obj_dict_keys : List String :=
  ["SMU1", "SMU2", "SMU3", "SMU4", "VMU1", "VMU2", "VSU1", "VSU2",
   "VAR1", "VAR2", "VARD"]

/-- The key-translation loop of Agilent4156.configure (lines 303-305): every
document key is looked up in obj_dict before any attribute is applied; the
first unknown key raises KeyError (modelled as error with that key). -/
def translate_keys (doc : List (String × List (String × String))) :
    Except String (List (String × List (String × String))) :=
  match doc with
  | [] => .ok []
  | (k, v) :: rest =>
      if k ∈ obj_dict_keys then
        match translate_keys rest with
        | .ok r => .ok ((k, v) :: r)
        | .error e => .error e
      else .error k

/-- Outcome of Agilent4156.configure: whether the initial disable_all reset
ran, the (slot, attribute, value) triples applied in order, and the error
raised, if any. -/
structure ConfigureOutcome where
  reset_ran : Bool
  applied : List (String × String × String)
  failure : Option String
deriving DecidableEq

/-- Agilent4156.configure (agilent4156.py lines 270-310): disable_all runs
first, then the whole key-translation loop, and only then the setter loop
that applies each (slot, attribute, value) in document order. -/
def configure (doc : List (String × List (String × String))) : ConfigureOutcome :=
  match translate_keys doc with
  | .error k => ⟨true, [], some k⟩
  | .ok t =>
      ⟨true,
       (t.map (fun kv => kv.2.map (fun av => (kv.1, av.1, av.2)))).flatten,
       none⟩

/-- A concrete channel-function assignment in which both SMU1 and SMU2 claim
the VAR1 role. -/
def funcDoubleVar1 : String → String :=
  fun ch => if ch == "SMU1" || ch == "SMU2" then "VAR1" else "CONS"

/-- A concrete channel-mode assignment: SMU1 is in V mode, every other
channel in I mode. -/
def modeDoubleVar1 : String → String :=
  fun ch => if ch == "SMU1" then "V" else "I"

/-- A concrete instrument column table: IC measures [1, 2, 3] and VB
measures [4, 5, 6]. -/
def fetch_ic_vb : String → List ℚ :=
  fun s => if s == "IC" then [1, 2, 3] else if s == "VB" then [4, 5, 6] else []

/-- The legality predicate on signal names from the spec: at most 6
characters and the first character alphabetic. -/
def legalName (r : List Char) : Prop :=
  r.length ≤ 6 ∧ ∃ d t, r = d :: t ∧ d.isAlpha = true

/-- Overwrite-style foldl over a channel list equals the last element of the
filtered list: the accumulator is replaced at every match and survives only
when nothing later matches. -/
theorem foldl_overwrite_eq_filter_getLast (p : String → Bool)
    (mode : String → String) (l : List String) :
    ∀ acc : Option String,
      l.foldl (fun a ch => if p ch then some (mode ch) else a) acc
        = ((l.filter p).getLast?).elim acc (fun c => some (mode c)) := by
  induction l with
  | nil => intro acc; rfl
  | cons ch rest ih =>
      intro acc
      rw [List.foldl_cons, ih]
      by_cases h : p ch
      · cases hl : (rest.filter p).getLast? <;>
          simp [List.filter_cons, h, List.getLast?_cons, hl]
      · simp [List.filter_cons, h]

/-- Any document containing a key outside obj_dict makes the translation
loop raise. -/
theorem translate_keys_error_of_unknown (k : String) (hnot : k ∉ obj_dict_keys) :
    ∀ doc : List (String × List (String × String)),
      k ∈ doc.map Prod.fst → ∃ e, translate_keys doc = .error e := by
  intro doc
  induction doc with
  | nil => intro hk; simp at hk
  | cons p rest ih =>
      intro hk
      obtain ⟨k1, v1⟩ := p
      simp only [List.map_cons, List.mem_cons] at hk
      by_cases hp : k1 ∈ obj_dict_keys
      · have hk2 : k ∈ rest.map Prod.fst := by
          rcases hk with hk | hk
          · subst hk; exact absurd hp hnot
          · exact hk
        obtain ⟨e, he⟩ := ih hk2
        exact ⟨e, by simp [translate_keys, hp, he]⟩
      · exact ⟨k1, by simp [translate_keys, hp]⟩

end Agilent4156

namespace Agilent4156

/-- C1 (counterexample): with SMU1 and SMU2 both set to function VAR1, SMU1
in V mode and SMU2 in I mode, the scan in VARX.channel_mode returns the mode
of the last matching channel (I, from SMU2), not the mode of the first
matching channel (V, from SMU1) as the claim states: the loop has no break
and later matches overwrite earlier ones. -/
theorem channel_mode_scan_not_first_match :
    channel_mode_scan "VAR1" funcDoubleVar1 modeDoubleVar1 = some "I" ∧
    channel_mode_first "VAR1" funcDoubleVar1 modeDoubleVar1 = some "V" ∧
    channel_mode_scan "VAR1" funcDoubleVar1 modeDoubleVar1 ≠
      channel_mode_first "VAR1" funcDoubleVar1 modeDoubleVar1 := by decide

/-- C1 (amended): for every sweep-variable role and every assignment of
functions and modes to channels, reading channel_mode scans SMU1, SMU2, SMU3,
SMU4, VSU1, VSU2 in that fixed order and returns the mode of the last channel
whose function equals the role designator; when no channel matches, the
result is the failure value (the local variable is unbound and the read
raises). -/
theorem channel_mode_scan_eq_last_match (role : String)
    (func mode : String → String) :
    channel_mode_scan role func mode
      = ((sweepChannels.filter (fun ch => func ch == role)).getLast?).map mode := by
  have h := foldl_overwrite_eq_filter_getLast
    (fun ch => func ch == role) mode sweepChannels none
  simp only [channel_mode_scan]
  rw [h]
  cases hE : (sweepChannels.filter (fun ch => func ch == role)).getLast? <;>
    simp [hE]

/-- C2 (code bug, evaluated at the failing input): the source doubles the
validation list with the Python expression 2 * valid_iv(...), which is list
repetition, not numeric scaling; the acceptance interval for step therefore
stays [-200, 200] in V mode and [-1, 1] in I mode, and the step setter
rejects 300 in V mode and 2 in I mode even though both lie inside the
doubled spans [-400, 400] and [-2, 2] promised by the claim. -/
theorem step_set_doubling_is_list_repetition :
    pyListMul 2 [-200, 200] = ([-200, 200, -200, 200] : List ℚ) ∧
    step_set "V" 300 = none ∧
    step_set "I" 2 = none ∧
    step_set "V" 200 = some 200 ∧
    step_set "I" 1 = some 1 ∧
    compliance_set "V" 2 = none := by decide

/-- C3 (counterexample): on a VSU whose channel function is VAR1 (not
constant), setting constant_value to 0 does not fail: the VSU setter never
consults the function and writes the CONS command. -/
theorem vsu_constant_value_set_ignores_function :
    ("VAR1" : String) ≠ "CONS" ∧
    vsu_constant_value_set "VSU1" "VAR1" "SWEEP" 0 =
      some [":PAGE:MEAS:CONS:VSU1 0"] := by decide

/-- C3 (amended): on a source-measure channel whose function is not constant,
or whose mode is common, setting constant_value or compliance always raises
before any transport command is issued; the voltage-source constant_value
setter is independent of the channel function and enforces only the fixed
range. -/
theorem smu_constant_setters_gated (ch channel_mode channel_function
    analyzer f g : String) (v : ℚ)
    (h : channel_function ≠ "CONS" ∨ channel_mode = "COMM") :
    smu_constant_value_set ch channel_mode channel_function analyzer v = none ∧
    smu_compliance_set ch channel_mode channel_function analyzer v = none ∧
    vsu_constant_value_set ch f analyzer v = vsu_constant_value_set ch g analyzer v := by
  have hmain : validate_cons channel_mode channel_function = none ∧
      validate_compl channel_mode channel_function = none := by
    rcases h with h | h <;>
      exact ⟨by simp [validate_cons, h], by simp [validate_compl, h]⟩
  exact ⟨by simp [smu_constant_value_set, hmain.1],
         by simp [smu_compliance_set, hmain.2], rfl⟩

/-- Witness for the amended C3 theorem at a concrete input. -/
theorem smu_constant_setters_gated_witness :
    smu_constant_value_set "SMU1" "V" "VAR1" "SWEEP" 0 = none ∧
    smu_compliance_set "SMU1" "V" "VAR1" "SWEEP" 0 = none ∧
    vsu_constant_value_set "SMU1" "VAR1" "SWEEP" 0 =
      vsu_constant_value_set "SMU1" "CONS" "SWEEP" 0 :=
  smu_constant_setters_gated "SMU1" "V" "VAR1" "SWEEP" "VAR1" "CONS" 0
    (Or.inl (by decide))

/-- C4 (counterexample): the VSU never overrides the empty base-class list of
legal channel modes, so setting the mode of a voltage-source channel to V
fails, where the claim says every value is accepted. -/
theorem vsu_channel_mode_set_rejects_v :
    channel_mode_set vsu_channel_mode_values "V" = none := by decide

/-- C4 (amended): setting a channel mode fails exactly when the value is
outside the channel-kind legal set; the set is V, I, COMM for source-measure
channels and V, DVOL for voltage-sense channels, while for voltage-source
channels the legal set is empty, so every mode value is rejected. -/
theorem channel_mode_set_legal_sets (m : String) :
    (channel_mode_set smu_channel_mode_values m = some m ↔
       m = "V" ∨ m = "I" ∨ m = "COMM") ∧
    (channel_mode_set smu_channel_mode_values m = none ↔
       ¬(m = "V" ∨ m = "I" ∨ m = "COMM")) ∧
    (channel_mode_set vmu_channel_mode_values m = some m ↔ m = "V" ∨ m = "DVOL") ∧
    (channel_mode_set vmu_channel_mode_values m = none ↔ ¬(m = "V" ∨ m = "DVOL")) ∧
    channel_mode_set vsu_channel_mode_values m = none := by
  simp only [channel_mode_set, strict_discrete_set, smu_channel_mode_values,
    vmu_channel_mode_values, vsu_channel_mode_values]
  refine ⟨?_, ?_, ?_, ?_, by simp⟩ <;>
  · by_cases h : m = "V" <;> by_cases h2 : m = "I" <;> by_cases h3 : m = "COMM" <;>
      by_cases h4 : m = "DVOL" <;> simp [h, h2, h3, h4]

/-- C5: the two range validators are mutually inverse: valid_iv in V mode
equals valid_compliance in I mode (both [-200, 200]), valid_iv in I mode
equals valid_compliance in V mode (both [-1, 1]), and on any other mode both
raise. -/
theorem valid_iv_valid_compliance_inverse (m : String)
    (h1 : m ≠ "V") (h2 : m ≠ "I") :
    valid_iv "V" = valid_compliance "I" ∧
    valid_iv "I" = valid_compliance "V" ∧
    valid_iv "V" = some [-200, 200] ∧
    valid_iv "I" = some [-1, 1] ∧
    valid_iv m = none ∧ valid_compliance m = none := by
  refine ⟨by decide, by decide, by decide, by decide, ?_, ?_⟩ <;>
    simp [valid_iv, valid_compliance, h1, h2]

/-- Witness for the C5 theorem at the concrete mode COMM. -/
theorem valid_iv_valid_compliance_inverse_witness :
    valid_iv "V" = valid_compliance "I" ∧
    valid_iv "I" = valid_compliance "V" ∧
    valid_iv "V" = some [-200, 200] ∧
    valid_iv "I" = some [-1, 1] ∧
    valid_iv "COMM" = none ∧ valid_compliance "COMM" = none :=
  valid_iv_valid_compliance_inverse "COMM" (by decide) (by decide)

/-- C6 (counterexample): on the empty name the length test passes and the
indexing of the first character raises IndexError, so the name check is not
total: the claim says the setter never fails. -/
theorem check_current_voltage_name_empty_raises :
    check_current_voltage_name [] = none := rfl

/-- C6 (amended): on every nonempty name the check never fails and returns a
legal name: the name itself when it has at most 6 characters and starts with
a letter, and otherwise the filler letter a followed by the first 5
characters of the original. -/
theorem check_current_voltage_name_nonempty_legal (c : Char) (rest : List Char) :
    ∃ r, check_current_voltage_name (c :: rest) = some r ∧ legalName r ∧
      r = (if (c :: rest).length ≤ 6 ∧ c.isAlpha = true then c :: rest
           else (Char.ofNat 97) :: (c :: rest).take 5) := by
  have htake : ((Char.ofNat 97) :: (c :: rest).take 5).length ≤ 6 := by
    simp only [List.length_cons, List.length_take]
    have := Nat.min_le_left 5 (rest.length + 1)
    omega
  by_cases h6 : 6 < (c :: rest).length
  · have hne : ¬((c :: rest).length ≤ 6 ∧ c.isAlpha = true) :=
      fun hc => absurd hc.1 (by omega)
    refine ⟨(Char.ofNat 97) :: (c :: rest).take 5, ?_, ⟨htake, _, _, rfl, by decide⟩, ?_⟩
    · unfold check_current_voltage_name
      rw [if_pos h6]
    · rw [if_neg hne]
  · by_cases ha : c.isAlpha
    · have hyes : (c :: rest).length ≤ 6 ∧ c.isAlpha = true := ⟨by omega, ha⟩
      refine ⟨c :: rest, ?_, ⟨by omega, c, rest, rfl, ha⟩, ?_⟩
      · unfold check_current_voltage_name
        rw [if_neg h6]
        show (if c.isAlpha then some (c :: rest)
              else some ((Char.ofNat 97) :: (c :: rest).take 5)) = some (c :: rest)
        rw [if_pos ha]
      · rw [if_pos hyes]
    · have hne : ¬((c :: rest).length ≤ 6 ∧ c.isAlpha = true) :=
        fun hc => absurd hc.2 ha
      refine ⟨(Char.ofNat 97) :: (c :: rest).take 5, ?_, ⟨htake, _, _, rfl, by decide⟩, ?_⟩
      · unfold check_current_voltage_name
        rw [if_neg h6]
        show (if c.isAlpha then some (c :: rest)
              else some ((Char.ofNat 97) :: (c :: rest).take 5))
            = some ((Char.ofNat 97) :: (c :: rest).take 5)
        rw [if_neg ha]
      · rw [if_neg hne]

/-- C7: saving a display list of more than 8 names raises the capacity error
after only the initial display-mode write; a list of exactly 8 names writes
all 8 in input order after the mode write; the extra-variable list behaves
identically with limit 2. -/
theorem save_capacity_and_order (l : List String) :
    (8 < l.length → save (.list l) =
      ([":PAGE:DISP:MODE LIST"], some "Maximum of 8 variables allowed")) ∧
    (l.length = 8 → save (.list l) =
      (":PAGE:DISP:MODE LIST" ::
         l.map (fun n => ":PAGE:DISP:LIST " ++ sq ++ n ++ sq), none)) ∧
    (2 < l.length → save_var (.list l) =
      ([":PAGE:DISP:MODE LIST"], some "Maximum of 2 variables allowed")) ∧
    (l.length = 2 → save_var (.list l) =
      (":PAGE:DISP:MODE LIST" ::
         l.map (fun n => ":PAGE:DISP:DVAR " ++ sq ++ n ++ sq), none)) := by
  refine ⟨fun h => ?_, fun h => ?_, fun h => ?_, fun h => ?_⟩ <;>
    simp [save, save_var, h]

/-- Witness for the C7 theorem at concrete lists of lengths 9, 8, 3 and 2. -/
theorem save_capacity_and_order_witness :
    save (.list ["V1", "V2", "V3", "V4", "V5", "V6", "V7", "V8", "V9"]) =
      ([":PAGE:DISP:MODE LIST"], some "Maximum of 8 variables allowed") ∧
    save (.list ["V1", "V2", "V3", "V4", "V5", "V6", "V7", "V8"]) =
      (":PAGE:DISP:MODE LIST" ::
         (["V1", "V2", "V3", "V4", "V5", "V6", "V7", "V8"].map
           (fun n => ":PAGE:DISP:LIST " ++ sq ++ n ++ sq)), none) ∧
    save_var (.list ["V1", "V2", "V3"]) =
      ([":PAGE:DISP:MODE LIST"], some "Maximum of 2 variables allowed") ∧
    save_var (.list ["V1", "V2"]) =
      (":PAGE:DISP:MODE LIST" ::
         (["V1", "V2"].map (fun n => ":PAGE:DISP:DVAR " ++ sq ++ n ++ sq)), none) :=
  ⟨(save_capacity_and_order _).1 (by decide),
   (save_capacity_and_order _).2.1 (by decide),
   (save_capacity_and_order _).2.2.1 (by decide),
   (save_capacity_and_order _).2.2.2 (by decide)⟩

/-- C8: in sampling mode, measure with period 100 and 50 points writes the
set-period command, then the set-points command, then the blocking
single-measurement command, exactly in that order; in sweep mode it writes
only the blocking single-measurement command. -/
theorem measure_commands :
    measure "SAMPLING" "100" 50 =
      [":PAGE:MEAS:SAMP:PER 100", ":PAGE:MEAS:SAMP:POIN 50",
       ":PAGE:SCON:MEAS:SING; *OPC?"] ∧
    ∀ (p : String) (n : Nat), measure "SWEEP" p n = [":PAGE:SCON:MEAS:SING; *OPC?"] :=
  ⟨by decide, fun p n => rfl⟩

/-- C9: with the saved data variables IC and VB and the instrument returning
column [1, 2, 3] for IC and [4, 5, 6] for VB, get_data produces the table
with columns exactly IC, VB in that order and rows (1, 4), (2, 5), (3, 6). -/
theorem get_data_ic_vb_table :
    data_variables "IC,VB" "" = ["IC", "VB"] ∧
    get_data true "IC,VB" "" fetch_ic_vb =
      some (["IC", "VB"], [[1, 4], [2, 5], [3, 6]]) := by decide

/-- C10: whenever the configuration document contains a channel-slot key
outside the 11 known slots, configure raises a lookup failure during the key
translation phase, which runs over the whole document before the setter
phase, so no document attribute is ever applied, while the initial bulk
reset has already run. -/
theorem configure_unknown_slot_applies_nothing
    (doc : List (String × List (String × String)))
    (h : ∃ k, k ∈ doc.map Prod.fst ∧ k ∉ obj_dict_keys) :
    (configure doc).reset_ran = true ∧
    (configure doc).applied = [] ∧
    (configure doc).failure.isSome = true := by
  obtain ⟨k, hk, hnot⟩ := h
  obtain ⟨e, he⟩ := translate_keys_error_of_unknown k hnot doc hk
  simp [configure, he]

/-- Witness for the C10 theorem at a concrete one-entry document whose only
key SMU9 is not a known slot. -/
theorem configure_unknown_slot_witness :
    (configure [("SMU9", [("start", "1")])]).reset_ran = true ∧
    (configure [("SMU9", [("start", "1")])]).applied = [] ∧
    (configure [("SMU9", [("start", "1")])]).failure.isSome = true :=
  configure_unknown_slot_applies_nothing _ ⟨"SMU9", by decide, by decide⟩

end Agilent4156
